import Mathlib

/-!
Shallow embedding of the order payment/pricing subsystem of the
Tweeky-Queeky store backend (FastAPI + Beanie/Mongo), verified against
its natural-language specification.

The handlers in `routers/orders.py` are embedded as pure functions over
an explicit document-store state (`DB`, an association list from order
id to `Order`).  Every handler returns the store after the call together
with an `Except ApiError` result; an error carries the original store,
mirroring the Python code, which raises `HTTPException` before any
`save()` on every error path.  Time is passed in explicitly (`now` for
timestamps, `nowIso` for the ISO string used in payment records), and
the outcome of the external PayPal verification call is an explicit
input (`VerifierOutcome`).

`utils/calc_prices.py`, `utils/paypal.py` and `models/order.py` are not
part of the provided sources; the definitions taken from the
specification instead of the code are marked `Modelled from the spec:`
in their doc comments.
-/

/-- HTTP-level error of a handler.  `badRequest` is HTTP 400, `notFound`
is HTTP 404, `serverError` is HTTP 500, matching the `HTTPException`
status codes raised in `routers/orders.py`. -/
inductive ApiError where
  | badRequest (detail : String)
  | notFound (detail : String)
  | serverError (detail : String)
deriving DecidableEq

/-- Embedding of `models/order.py` `PaymentResult` (fields as constructed
at `routers/orders.py` lines 184-189). -/
structure PaymentResult where
  id : String
  status : String
  update_time : String
  email_address : String
deriving DecidableEq

/-- Embedding of `models/order.py` `ShippingAddress` (fields as used at
`routers/orders.py` lines 67-72). -/
structure ShippingAddress where
  address : String
  city : String
  postal_code : String
  country : String
deriving DecidableEq

/-- Embedding of `models/order.py` `OrderItem` (fields as constructed at
`routers/orders.py` lines 43-62).  Money amounts are embedded as `ℚ`. -/
structure OrderItem where
  name : String
  qty : Nat
  image : String
  price : ℚ
  product : String
deriving DecidableEq

/-- Embedding of `models/order.py` `Order` (fields as constructed at
`routers/orders.py` lines 64-78 and mutated at lines 174-189, 226-227).
Timestamps are abstract `Nat` instants. -/
structure Order where
  order_items : List OrderItem
  user : String
  shipping_address : ShippingAddress
  payment_method : String
  items_price : ℚ
  tax_price : ℚ
  shipping_price : ℚ
  total_price : ℚ
  is_paid : Bool := false
  paid_at : Option Nat := none
  payment_result : Option PaymentResult := none
  is_delivered : Bool := false
  delivered_at : Option Nat := none
deriving DecidableEq

/-- The persistence layer: a document store mapping order id to `Order`. -/
abbrev DB := List (String × Order)

/-- Embedding of `Order.get(id)`: find a document by id. -/
def dbGet (db : DB) (order_id : String) : Option Order :=
  db.lookup order_id

/-- Embedding of `order.save()`: upsert the document under the given id
(unconditional overwrite, as Beanie `save` does). -/
def dbSet : DB → String → Order → DB
  | [], k, v => [(k, v)]
  | (k', v') :: rest, k, v =>
    if k' == k then (k, v) :: rest else (k', v') :: dbSet rest k v

/-- One line item of the `OrderCreate` request schema: the client sends
product id, name, qty, image and a client-side price.  The handler never
reads the client price. -/
structure OrderItemCreate where
  product : String
  name : String
  qty : Nat
  image : String
  price : ℚ
deriving DecidableEq

/-- The `OrderCreate` request schema of `POST /api/orders`. -/
structure OrderCreate where
  order_items : List OrderItemCreate
  shipping_address : ShippingAddress
  payment_method : String
deriving DecidableEq

/-- A catalog product record; only the authoritative `price` is read by
the order handlers. -/
structure CatalogProduct where
  price : ℚ
deriving DecidableEq

/-- The product catalog (external collaborator): id to record. -/
abbrev Catalog := List (String × CatalogProduct)

/-- Embedding of the bulk catalog query and map lookup at
`routers/orders.py` lines 30-36: resolve one product id. -/
def catalogFind (catalog : Catalog) (product_id : String) : Option CatalogProduct :=
  catalog.lookup product_id

/-- The fixed pricing constants of the Pricing Engine, taken from the
worked example in the specification (tax rate 10 percent, free-shipping
threshold 100, flat fee 5). -/
def TAX_RATE : ℚ := 1 / 10

def FREE_SHIPPING_THRESHOLD : ℚ := 100

def FLAT_SHIPPING_FEE : ℚ := 5

/-- Round a money amount to 2 decimal places. -/
def round2 (x : ℚ) : ℚ := (round (x * 100) : ℤ) / 100

/-- Result record of the Pricing Engine. -/
structure Prices where
  itemsPrice : ℚ
  taxPrice : ℚ
  shippingPrice : ℚ
  totalPrice : ℚ
deriving DecidableEq

/-- Modelled from the spec: `utils/calc_prices.py` (`calc_prices`) is not
among the provided sources.  Section 4.1 Pricing Engine: itemsTotal is
the rounded sum of qty times unit price, tax is itemsTotal times
TAX_RATE rounded, shipping is 0 above the free-shipping threshold and
the flat fee otherwise, and the grand total is the exact sum of the
already-rounded components.  It reads only the `qty` and `price` fields
of its input items. -/
def calc_prices (items : List OrderItem) : Prices :=
  let itemsPrice := round2 (items.foldl (fun acc it => acc + (it.qty : ℚ) * it.price) 0)
  let shippingPrice := if itemsPrice > FREE_SHIPPING_THRESHOLD then 0 else FLAT_SHIPPING_FEE
  let taxPrice := round2 (TAX_RATE * itemsPrice)
  { itemsPrice := itemsPrice
    taxPrice := taxPrice
    shippingPrice := shippingPrice
    totalPrice := itemsPrice + taxPrice + shippingPrice }

/-- The loop at `routers/orders.py` lines 35-49: resolve each client
item against the catalog, failing with 404 naming the first product id
that does not resolve, and build the stored line items, whose `price`
is the catalog price (the client price is never read). -/
def resolveItems (catalog : Catalog) : List OrderItemCreate → Except ApiError (List OrderItem)
  | [] => .ok []
  | item :: rest =>
    match catalogFind catalog item.product with
    | none => .error (.notFound ("Product " ++ item.product ++ " not found"))
    | some matching_item =>
      match resolveItems catalog rest with
      | .error e => .error e
      | .ok tail =>
        .ok ({ name := item.name
               qty := item.qty
               image := item.image
               price := matching_item.price
               product := item.product } :: tail)

/-- Handler `POST /api/orders` (`add_order_items`, `routers/orders.py`
lines 17-82).  `new_order_id` is the fresh document id generated by the
persistence layer at `order.save()`; `user_id` is the authenticated
caller. -/
def add_order_items (catalog : Catalog) (db : DB) (new_order_id : String)
    (user_id : String) (order_data : OrderCreate) : DB × Except ApiError Order :=
  if order_data.order_items.isEmpty then
    (db, .error (.badRequest "No order items"))
  else
    match resolveItems catalog order_data.order_items with
    | .error e => (db, .error e)
    | .ok items =>
      let prices := calc_prices items
      let order : Order :=
        { order_items := items
          user := user_id
          shipping_address := order_data.shipping_address
          payment_method := order_data.payment_method
          items_price := prices.itemsPrice
          tax_price := prices.taxPrice
          shipping_price := prices.shippingPrice
          total_price := prices.totalPrice }
      (dbSet db new_order_id order, .ok order)

/-- Handler `GET /api/orders/{id}` (`get_order_by_id`,
`routers/orders.py` lines 93-113).  `current_user` is the authenticated
caller; the handler body never consults it. -/
def get_order_by_id (db : DB) (order_id : String) (current_user : String) :
    Except ApiError Order :=
  match dbGet db order_id with
  | none => .error (.notFound "Order not found")
  | some order =>
    let _caller := current_user
    .ok order

/-- The payment payload of `PUT /api/orders/{id}/pay`: the handler takes
a raw `dict`; these are the keys it reads (`routers/orders.py` lines
123-124, 177-182).  A key can be absent (`none`) or present with any
string value, including the empty string, which Python treats as falsy. -/
structure PaymentData where
  id : Option String := none
  transaction_id : Option String := none
  paymentID : Option String := none
  status : Option String := none
  email_address : Option String := none
  payer : Option (Option String) := none
  update_time : Option String := none
deriving DecidableEq

/-- Python `a or b` on optional strings: an absent or empty string falls
through to the right operand. -/
def orFalsy (a b : Option String) : Option String :=
  match a with
  | some s => if s == "" then b else some s
  | none => b

/-- Embedding of line 123: payment id from the `id` key, else the
`transaction_id` key, else the `paymentID` key, with falsy fallthrough. -/
def pidOf (pd : PaymentData) : Option String :=
  orFalsy pd.id (orFalsy pd.transaction_id pd.paymentID)

/-- Embedding of lines 177-180: email from `email_address`, else from
`payer.email_address` when a payer object is present. -/
def emailOf (pd : PaymentData) : String :=
  let email := (pd.email_address).getD ""
  if email == "" then
    match pd.payer with
    | some payer_email => payer_email.getD ""
    | none => ""
  else email

/-- Embedding of line 182: the `update_time` key when present and
non-falsy, else the current time in ISO format. -/
def updateTimeOf (pd : PaymentData) (nowIso : String) : String :=
  match pd.update_time with
  | some t => if t == "" then nowIso else t
  | none => nowIso

/-- Modelled from the spec: `utils/paypal.py` (`check_if_new_transaction`)
is not among the provided sources.  Section 4.3 Transaction Ledger
Guard: returns `false` exactly when some stored order already carries a
payment record with the given provider transaction id. -/
def check_if_new_transaction (db : DB) (payment_id : String) : Bool :=
  ! db.any fun entry =>
      match entry.2.payment_result with
      | some pr => pr.id == payment_id
      | none => false

/-- Modelled from the spec: `utils/paypal.py` (`verify_paypal_payment`)
is not among the provided sources.  Section 4.2: the provider call
either returns a dict with a `verified` flag and a reported paid amount
(`value`, embedded as `ℚ`), or raises (unavailable, timeout, malformed
response) - the `exn` case.  The outcome is an input to the handler. -/
inductive VerifierOutcome where
  | ok (verified : Bool) (value : ℚ)
  | exn
deriving DecidableEq

/-- Embedding of lines 160-171 of `routers/orders.py`: the amount check whose result
the handler discards.  When the call raised, nothing was computed
(`none`); otherwise `value` is replaced by the order total when
unverified (line 164) and compared with the total (line 166).  The
result feeds an empty `if` body (`pass`) and is never used. -/
def mismatchObserved (order : Order) (verifier : VerifierOutcome) : Option Bool :=
  match verifier with
  | .exn => none
  | .ok verified value =>
    let v := if verified then value else order.total_price
    some (decide (¬ order.total_price = v))

/-- Read phase of `PUT /api/orders/{id}/pay`, lines 123-171: everything before the
first write - payment id extraction and falsy check, order load,
`is_paid` check, ledger check, and the discarded verification block.
On success it returns the payment id and the order as loaded. -/
def payReadPhase (db : DB) (order_id : String) (pd : PaymentData)
    (verifier : VerifierOutcome) : Except ApiError (String × Order) :=
  match pidOf pd with
  | none => .error (.badRequest "Payment ID not found")
  | some payment_id =>
    if payment_id == "" then .error (.badRequest "Payment ID not found")
    else
      match dbGet db order_id with
      | none => .error (.notFound "Order not found")
      | some order =>
        if order.is_paid then .error (.badRequest "Order is already paid")
        else if ! check_if_new_transaction db payment_id then
          .error (.badRequest "Transaction has been used before")
        else
          let _unused := mismatchObserved order verifier
          .ok (payment_id, order)

/-- Write phase of `PUT /api/orders/{id}/pay`, lines 173-201: set `is_paid`, `paid_at`
and the payment record on the in-memory order loaded earlier, then
`save()` - an unconditional overwrite of whatever the store holds under
`order_id` at write time. -/
def payWritePhase (db : DB) (order_id : String) (payment_id : String)
    (order : Order) (pd : PaymentData) (now : Nat) (nowIso : String) : DB × Order :=
  let updated : Order :=
    { order with
      is_paid := true
      paid_at := some now
      payment_result := some
        { id := payment_id
          status := (pd.status).getD "COMPLETED"
          update_time := updateTimeOf pd nowIso
          email_address := emailOf pd } }
  (dbSet db order_id updated, updated)

/-- Handler `PUT /api/orders/{id}/pay` (`update_order_to_paid`,
`routers/orders.py` lines 116-203): the read phase followed by the
write phase. -/
def update_order_to_paid (db : DB) (order_id : String) (pd : PaymentData)
    (verifier : VerifierOutcome) (now : Nat) (nowIso : String) :
    DB × Except ApiError Order :=
  match payReadPhase db order_id pd verifier with
  | .error e => (db, .error e)
  | .ok (payment_id, order) =>
    let result := payWritePhase db order_id payment_id order pd now nowIso
    (result.1, .ok result.2)

/-- Handler `PUT /api/orders/{id}/deliver` (`update_order_to_delivered`,
`routers/orders.py` lines 206-231).  The admin gate is the
`require_admin` dependency, resolved before the handler body runs. -/
def update_order_to_delivered (db : DB) (order_id : String) (now : Nat) :
    DB × Except ApiError Order :=
  match dbGet db order_id with
  | none => (db, .error (.notFound "Order not found"))
  | some order =>
    let updated := { order with is_delivered := true, delivered_at := some now }
    (dbSet db order_id updated, .ok updated)

/-- One interleaving of two concurrent `update_order_to_paid` calls A
and B on the same order id against a shared store: both read phases run
against the initial store (each handler suspends at its awaits between
load and save), then A writes, then B writes.  Returns the final store
and the two responses. -/
def racyBothPay (db0 : DB) (order_id : String) (pdA pdB : PaymentData)
    (vA vB : VerifierOutcome) (nowA nowB : Nat) (isoA isoB : String) :
    DB × Except ApiError Order × Except ApiError Order :=
  match payReadPhase db0 order_id pdA vA, payReadPhase db0 order_id pdB vB with
  | .ok (pidA, oA), .ok (pidB, oB) =>
    let wA := payWritePhase db0 order_id pidA oA pdA nowA isoA
    let wB := payWritePhase wA.1 order_id pidB oB pdB nowB isoB
    (wB.1, .ok wA.2, .ok wB.2)
  | .error eA, .ok (pidB, oB) =>
    let wB := payWritePhase db0 order_id pidB oB pdB nowB isoB
    (wB.1, .error eA, .ok wB.2)
  | .ok (pidA, oA), .error eB =>
    let wA := payWritePhase db0 order_id pidA oA pdA nowA isoA
    (wA.1, .ok wA.2, .error eB)
  | .error eA, .error eB => (db0, .error eA, .error eB)

/-- Whether a handler response is a success. -/
def exceptIsOk : Except ApiError Order → Bool
  | .ok _ => true
  | .error _ => false

/-! ### Concrete fixtures used by witnesses and counterexamples -/

/-- A concrete shipping address. -/
def exAddr : ShippingAddress :=
  { address := "1 Main St", city := "Springfield", postal_code := "00001", country := "US" }

/-- A concrete unpaid, undelivered order with total 16, owned by alice. -/
def exOrderUnpaid : Order :=
  { order_items := []
    user := "alice"
    shipping_address := exAddr
    payment_method := "PayPal"
    items_price := 10
    tax_price := 1
    shipping_price := 5
    total_price := 16 }

/-- A concrete paid order owned by bob whose payment record uses the
provider transaction id `tx-used`. -/
def exOrderPaid : Order :=
  { exOrderUnpaid with
    user := "bob"
    is_paid := true
    paid_at := some 0
    payment_result := some
      { id := "tx-used", status := "COMPLETED", update_time := "t0", email_address := "bob@example.com" } }

/-- A store holding the single unpaid order under id `o1`. -/
def exDbUnpaid : DB := [("o1", exOrderUnpaid)]

/-- A store holding the unpaid order `o1` and the already-paid order `o2`. -/
def exDbTwo : DB := [("o1", exOrderUnpaid), ("o2", exOrderPaid)]

/-- A payment payload claiming provider transaction `txA` via the `id` key. -/
def exPdA : PaymentData := { id := some "txA" }

/-- A payment payload claiming provider transaction `txB` via the `id` key. -/
def exPdB : PaymentData := { id := some "txB" }

/-- A payment payload claiming the reused transaction id `tx-used`. -/
def exPdReused : PaymentData := { id := some "tx-used" }

/-- A payment payload exercising the alternative keys: the id arrives
under `transaction_id` and the email under `payer.email_address`. -/
def exPdAlt : PaymentData :=
  { transaction_id := some "tx77", payer := some (some "payer@example.com") }

/-- A concrete catalog with two products. -/
def exCatalog : Catalog := [("p1", { price := 10 }), ("p2", { price := 20 })]

/-- A client line item referencing catalog product `p1` with an absurd
client-side price. -/
def exItemP1 : OrderItemCreate :=
  { product := "p1", name := "Widget", qty := 2, image := "img1", price := 999 }

/-- A client line item referencing a product id absent from the catalog. -/
def exItemMissing : OrderItemCreate :=
  { product := "zz", name := "Ghost", qty := 1, image := "img2", price := 1 }

/-- An order-creation request with an empty cart. -/
def exCreateEmpty : OrderCreate :=
  { order_items := [], shipping_address := exAddr, payment_method := "PayPal" }

/-- An order-creation request containing an unresolvable product reference. -/
def exCreateMissing : OrderCreate :=
  { order_items := [exItemP1, exItemMissing], shipping_address := exAddr, payment_method := "PayPal" }

/-- Two order-creation requests agreeing on everything except the
client-side price field of the single line item. -/
def exCreateA : OrderCreate :=
  { order_items := [{ product := "p1", name := "Widget", qty := 2, image := "img1", price := 999 }]
    shipping_address := exAddr
    payment_method := "PayPal" }

/-- Companion request to `exCreateA` with a different client price. -/
def exCreateB : OrderCreate :=
  { order_items := [{ product := "p1", name := "Widget", qty := 2, image := "img1", price := 0 }]
    shipping_address := exAddr
    payment_method := "PayPal" }

/-! ### Helper lemmas -/

/-- Inversion of a successful read phase: the payment id came from the
payload keys and is non-falsy, the order was loaded, it was unpaid, and
the ledger guard reported the transaction as fresh. -/
theorem payReadPhase_ok_inv {db : DB} {order_id : String} {pd : PaymentData}
    {verifier : VerifierOutcome} {payment_id : String} {order : Order}
    (h : payReadPhase db order_id pd verifier = .ok (payment_id, order)) :
    pidOf pd = some payment_id ∧ ¬ payment_id = "" ∧
    dbGet db order_id = some order ∧ order.is_paid = false ∧
    check_if_new_transaction db payment_id = true := by
  unfold payReadPhase at h
  cases hp : pidOf pd with
  | none => rw [hp] at h; simp at h
  | some s =>
    rw [hp] at h
    by_cases hs : s = ""
    · subst hs; simp at h
    · cases hdb : dbGet db order_id with
      | none => rw [hdb] at h; simp [hs] at h
      | some o =>
        rw [hdb] at h
        by_cases hpaid : o.is_paid
        · simp [hs, hpaid] at h
        · cases hfresh : check_if_new_transaction db s with
          | false => simp [hs, hpaid, hfresh] at h
          | true =>
            simp [hs, hpaid, hfresh] at h
            obtain ⟨rfl, rfl⟩ := h
            exact ⟨rfl, hs, rfl, by simpa using hpaid, hfresh⟩

/-- The write phase always produces a paid order with a payment record
and stores it unconditionally. -/
theorem payWritePhase_unconditional (db : DB) (order_id payment_id : String)
    (order : Order) (pd : PaymentData) (now : Nat) (nowIso : String) :
    (payWritePhase db order_id payment_id order pd now nowIso).2.is_paid = true ∧
    (payWritePhase db order_id payment_id order pd now nowIso).2.payment_result.isSome = true ∧
    (payWritePhase db order_id payment_id order pd now nowIso).1 =
      dbSet db order_id (payWritePhase db order_id payment_id order pd now nowIso).2 :=
  ⟨rfl, rfl, rfl⟩

/-- On a catalog, resolution of client items depends only on the product
ids, names, quantities and images, never on the client price field. -/
theorem resolveItems_congr (catalog : Catalog) {l1 l2 : List OrderItemCreate}
    (h : List.Forall₂
      (fun a b => a.product = b.product ∧ a.name = b.name ∧ a.qty = b.qty ∧ a.image = b.image)
      l1 l2) :
    resolveItems catalog l1 = resolveItems catalog l2 := by
  induction h with
  | nil => rfl
  | cons hab _ ih =>
    obtain ⟨hp, hn, hq, hi⟩ := hab
    simp only [resolveItems, hp, hn, hq, hi, ih]

/-- Every line item produced by a successful resolution carries the
catalog price of its product. -/
theorem resolveItems_price_from_catalog (catalog : Catalog) :
    ∀ {l : List OrderItemCreate} {items : List OrderItem},
      resolveItems catalog l = .ok items →
      ∀ it ∈ items, ∃ p, catalogFind catalog it.product = some p ∧ it.price = p.price := by
  intro l
  induction l with
  | nil =>
    intro items h it hit
    simp only [resolveItems] at h
    obtain rfl := by simpa using h
    simp at hit
  | cons a rest ih =>
    intro items h it hit
    simp only [resolveItems] at h
    cases hf : catalogFind catalog a.product with
    | none => rw [hf] at h; simp at h
    | some p =>
      rw [hf] at h
      cases hr : resolveItems catalog rest with
      | error e => rw [hr] at h; simp at h
      | ok tail =>
        rw [hr] at h
        obtain rfl := by simpa using h
        rcases List.mem_cons.1 hit with rfl | htail
        · exact ⟨p, hf, rfl⟩
        · exact ih hr it htail

/-- When some client item references a product id absent from the
catalog, resolution fails with a 404 naming a missing product id. -/
theorem resolveItems_missing (catalog : Catalog) :
    ∀ {l : List OrderItemCreate},
      (∃ it ∈ l, catalogFind catalog it.product = none) →
      ∃ pid, (∃ it ∈ l, it.product = pid ∧ catalogFind catalog pid = none) ∧
        resolveItems catalog l = .error (.notFound ("Product " ++ pid ++ " not found")) := by
  intro l
  induction l with
  | nil => intro h; simp at h
  | cons a rest ih =>
    intro h
    cases hf : catalogFind catalog a.product with
    | none =>
      refine ⟨a.product, ⟨a, List.mem_cons_self a rest, rfl, hf⟩, ?_⟩
      simp only [resolveItems, hf]
    | some p =>
      obtain ⟨it, hmem, hnone⟩ := h
      rcases List.mem_cons.1 hmem with rfl | hmem'
      · rw [hf] at hnone; exact absurd hnone (by simp)
      · obtain ⟨pid, ⟨it', hmem'', hpid, hnone'⟩, herr⟩ := ih ⟨it, hmem', hnone⟩
        refine ⟨pid, ⟨it', List.mem_cons_of_mem a hmem'', hpid, hnone'⟩, ?_⟩
        simp only [resolveItems, hf, herr]

/-! ### Claims about order creation -/

/-- C3: two order-creation requests that differ only in their
client-supplied price fields but agree on product ids, quantities (and
the other non-price item fields), shipping address and payment method
produce identical results against the same catalog and store; moreover
every persisted line item carries the catalog price of its product, so
stored unit prices never depend on client input. -/
theorem claim_C3_prices_from_catalog_only (catalog : Catalog) (db : DB)
    (new_order_id user_id : String) (d1 d2 : OrderCreate)
    (hitems : List.Forall₂
      (fun a b => a.product = b.product ∧ a.name = b.name ∧ a.qty = b.qty ∧ a.image = b.image)
      d1.order_items d2.order_items)
    (haddr : d1.shipping_address = d2.shipping_address)
    (hpm : d1.payment_method = d2.payment_method) :
    add_order_items catalog db new_order_id user_id d1 =
      add_order_items catalog db new_order_id user_id d2 ∧
    (∀ db2 order, add_order_items catalog db new_order_id user_id d1 = (db2, .ok order) →
      ∀ it ∈ order.order_items,
        ∃ p, catalogFind catalog it.product = some p ∧ it.price = p.price) := by
  have hres := resolveItems_congr catalog hitems
  have hempty : d1.order_items.isEmpty = d2.order_items.isEmpty := by
    have hlen := hitems.length_eq
    cases h1 : d1.order_items with
    | nil =>
      cases h2 : d2.order_items with
      | nil => rfl
      | cons b t2 => rw [h1, h2] at hlen; simp at hlen
    | cons a t =>
      cases h2 : d2.order_items with
      | nil => rw [h1, h2] at hlen; simp at hlen
      | cons b t2 => rfl
  constructor
  · unfold add_order_items
    rw [hempty, hres, haddr, hpm]
  · intro db2 order h it hit
    unfold add_order_items at h
    cases he : d1.order_items.isEmpty with
    | true => rw [he] at h; simp at h
    | false =>
      rw [he] at h
      simp only [Bool.false_eq_true, if_false] at h
      cases hr : resolveItems catalog d1.order_items with
      | error e => rw [hr] at h; simp at h
      | ok items =>
        rw [hr] at h
        simp only [Prod.mk.injEq] at h
        obtain ⟨-, h2⟩ := h
        obtain rfl := by simpa using h2
        exact resolveItems_price_from_catalog catalog hr it hit

/-- Witness for C3 at a concrete catalog and two concrete requests that
differ only in the client price (999 versus 0). -/
theorem claim_C3_prices_from_catalog_only_witness :
    add_order_items exCatalog [] "o1" "alice" exCreateA =
      add_order_items exCatalog [] "o1" "alice" exCreateB :=
  (claim_C3_prices_from_catalog_only exCatalog [] "o1" "alice" exCreateA exCreateB
    (List.Forall₂.cons (by decide) List.Forall₂.nil) rfl rfl).1

/-- C7: order creation with an empty line-item list fails with HTTP 400
(`No order items`), and with any unresolvable product reference it fails
with HTTP 404 naming a missing product id; in both failure cases the
store is returned unchanged, so no order is persisted. -/
theorem claim_C7_create_rejected_without_write (catalog : Catalog) (db : DB)
    (new_order_id user_id : String) (d : OrderCreate) :
    (d.order_items = [] →
      add_order_items catalog db new_order_id user_id d =
        (db, .error (.badRequest "No order items"))) ∧
    ((∃ it ∈ d.order_items, catalogFind catalog it.product = none) →
      (add_order_items catalog db new_order_id user_id d).1 = db ∧
      ∃ pid, (∃ it ∈ d.order_items, it.product = pid ∧ catalogFind catalog pid = none) ∧
        (add_order_items catalog db new_order_id user_id d).2 =
          .error (.notFound ("Product " ++ pid ++ " not found"))) := by
  constructor
  · intro h
    unfold add_order_items
    rw [h]
    rfl
  · intro h
    obtain ⟨pid, hw, herr⟩ := resolveItems_missing catalog h
    have hne : d.order_items.isEmpty = false := by
      cases hl : d.order_items with
      | nil => rw [hl] at hw; simp at hw
      | cons a t => rfl
    refine ⟨?_, pid, hw, ?_⟩
    · simp [add_order_items, hne, herr]
    · simp [add_order_items, hne, herr]

/-- Witness for C7: a concrete empty-cart request and a concrete request
referencing the nonexistent product id `zz`, both against an empty
store. -/
theorem claim_C7_create_rejected_without_write_witness :
    add_order_items exCatalog [] "o9" "alice" exCreateEmpty =
      ([], .error (.badRequest "No order items")) ∧
    ((add_order_items exCatalog [] "o9" "alice" exCreateMissing).1 = [] ∧
      ∃ pid, (∃ it ∈ exCreateMissing.order_items,
          it.product = pid ∧ catalogFind exCatalog pid = none) ∧
        (add_order_items exCatalog [] "o9" "alice" exCreateMissing).2 =
          .error (.notFound ("Product " ++ pid ++ " not found"))) :=
  ⟨(claim_C7_create_rejected_without_write exCatalog [] "o9" "alice" exCreateEmpty).1 rfl,
   (claim_C7_create_rejected_without_write exCatalog [] "o9" "alice" exCreateMissing).2
     ⟨exItemMissing, by decide, by decide⟩⟩

/-! ### Claims about markPaid rejections and reads -/

/-- C5: a markPaid call carrying a payment id, on an order that is
already paid, fails with HTTP 400 `Order is already paid` and returns
the store unchanged, so `paid_at` and `payment_result` of every stored
order are untouched. -/
theorem claim_C5_already_paid_rejected (db : DB) (order_id : String) (pd : PaymentData)
    (verifier : VerifierOutcome) (now : Nat) (nowIso : String)
    (payment_id : String) (order : Order)
    (hpid : pidOf pd = some payment_id) (hne : ¬ payment_id = "")
    (horder : dbGet db order_id = some order) (hpaid : order.is_paid = true) :
    update_order_to_paid db order_id pd verifier now nowIso =
      (db, .error (.badRequest "Order is already paid")) := by
  unfold update_order_to_paid payReadPhase
  rw [hpid]
  simp [hne, horder, hpaid]

/-- Witness for C5 at a concrete store holding one already-paid order. -/
theorem claim_C5_already_paid_rejected_witness :
    update_order_to_paid [("o2", exOrderPaid)] "o2" exPdB (.ok true 16) 9 "iso9" =
      ([("o2", exOrderPaid)], .error (.badRequest "Order is already paid")) :=
  claim_C5_already_paid_rejected [("o2", exOrderPaid)] "o2" exPdB (.ok true 16) 9 "iso9"
    "txB" exOrderPaid rfl (by decide) rfl rfl

/-- C4: a markPaid call whose claimed transaction id already appears in
the payment record of another stored order fails with HTTP 400
`Transaction has been used before` and returns the store unchanged, so
both the target order and the order that originally used the
transaction id (its `is_paid` in particular) are untouched. -/
theorem claim_C4_duplicate_transaction_rejected (db : DB) (order_id : String)
    (pd : PaymentData) (verifier : VerifierOutcome) (now : Nat) (nowIso : String)
    (payment_id : String) (order : Order)
    (other_id : String) (other : Order) (pr : PaymentResult)
    (hpid : pidOf pd = some payment_id) (hne : ¬ payment_id = "")
    (horder : dbGet db order_id = some order) (hunpaid : order.is_paid = false)
    (_hdistinct : ¬ other_id = order_id)
    (hmem : (other_id, other) ∈ db)
    (hrec : other.payment_result = some pr) (hrecid : pr.id = payment_id) :
    update_order_to_paid db order_id pd verifier now nowIso =
      (db, .error (.badRequest "Transaction has been used before")) := by
  have hany : (db.any fun entry =>
      match entry.2.payment_result with
      | some pr => pr.id == payment_id
      | none => false) = true := by
    refine List.any_eq_true.2 ⟨(other_id, other), hmem, ?_⟩
    simp [hrec, hrecid]
  unfold update_order_to_paid payReadPhase check_if_new_transaction
  rw [hpid]
  simp [hne, horder, hunpaid, hany]

/-- Witness for C4: the store `exDbTwo` holds the unpaid order `o1` and
the paid order `o2` whose record uses `tx-used`; a markPaid call on `o1`
claiming `tx-used` is rejected with the store unchanged. -/
theorem claim_C4_duplicate_transaction_rejected_witness :
    update_order_to_paid exDbTwo "o1" exPdReused (.ok true 16) 3 "iso3" =
      (exDbTwo, .error (.badRequest "Transaction has been used before")) :=
  claim_C4_duplicate_transaction_rejected exDbTwo "o1" exPdReused (.ok true 16) 3 "iso3"
    "tx-used" exOrderUnpaid "o2" exOrderPaid
    { id := "tx-used", status := "COMPLETED", update_time := "t0", email_address := "bob@example.com" }
    rfl (by decide) rfl rfl (by decide) (by decide) rfl rfl

/-- C8: markDelivered on an absent order id fails with HTTP 404
`Order not found` and returns the store unchanged; on an existing order
it sets `is_delivered` and `delivered_at` and writes the result back,
with no condition on `is_paid` (the conclusion holds for every stored
order, in particular an unpaid one). -/
theorem claim_C8_deliver_behaviour (db : DB) (order_id : String) (now : Nat) :
    (dbGet db order_id = none →
      update_order_to_delivered db order_id now =
        (db, .error (.notFound "Order not found"))) ∧
    (∀ order, dbGet db order_id = some order →
      update_order_to_delivered db order_id now =
        (dbSet db order_id { order with is_delivered := true, delivered_at := some now },
         .ok { order with is_delivered := true, delivered_at := some now })) := by
  constructor
  · intro h
    unfold update_order_to_delivered
    rw [h]
  · intro order h
    unfold update_order_to_delivered
    rw [h]

/-- Witness for C8: a delivery call on an empty store is rejected, and a
delivery call on the concrete unpaid order `o1` succeeds (showing the
missing `is_paid` check). -/
theorem claim_C8_deliver_behaviour_witness :
    update_order_to_delivered [] "o1" 7 = ([], .error (.notFound "Order not found")) ∧
    (exOrderUnpaid.is_paid = false ∧
      update_order_to_delivered exDbUnpaid "o1" 7 =
        (dbSet exDbUnpaid "o1" { exOrderUnpaid with is_delivered := true, delivered_at := some 7 },
         .ok { exOrderUnpaid with is_delivered := true, delivered_at := some 7 })) :=
  ⟨(claim_C8_deliver_behaviour [] "o1" 7).1 rfl,
   rfl,
   (claim_C8_deliver_behaviour exDbUnpaid "o1" 7).2 exOrderUnpaid rfl⟩

/-- C9: for every existing order, `GET /orders/{id}` returns the full
order to every authenticated caller: the handler performs no ownership
or privilege check, so the conclusion is independent of `current_user`. -/
theorem claim_C9_any_user_reads_any_order (db : DB) (order_id : String) (order : Order)
    (h : dbGet db order_id = some order) :
    ∀ current_user : String, get_order_by_id db order_id current_user = .ok order := by
  intro u
  unfold get_order_by_id
  rw [h]

/-- Witness for C9: the order `o1` is owned by alice, yet the caller
mallory receives it in full. -/
theorem claim_C9_any_user_reads_any_order_witness :
    exOrderUnpaid.user = "alice" ∧
    get_order_by_id exDbUnpaid "o1" "mallory" = .ok exOrderUnpaid :=
  ⟨rfl, claim_C9_any_user_reads_any_order exDbUnpaid "o1" exOrderUnpaid rfl "mallory"⟩

/-! ### Claims about verification, failure handling and concurrency -/

/-- The order `o1` as it is stored after the markPaid call of the C1
scenario (verifier amount 5 against total 16). -/
def exOrderPaidByA : Order :=
  { exOrderUnpaid with
    is_paid := true
    paid_at := some 3
    payment_result := some
      { id := "txA", status := "COMPLETED", update_time := "iso3", email_address := "" } }

/-- C1 counterexample: the order `o1` is unpaid with total 16, the
verifier reports a verified amount of 5, a mismatch is observed at the
embedded lines 163-168, and yet the call succeeds: the order is written
back with `is_paid = true` and a payment record attached, contradicting
the claim that a mismatching amount leaves the order unpaid. -/
theorem claim_C1_counterexample :
    exOrderUnpaid.is_paid = false ∧
    exOrderUnpaid.total_price = 16 ∧
    mismatchObserved exOrderUnpaid (.ok true 5) = some true ∧
    update_order_to_paid exDbUnpaid "o1" exPdA (.ok true 5) 3 "iso3" =
      (dbSet exDbUnpaid "o1" exOrderPaidByA, .ok exOrderPaidByA) ∧
    exOrderPaidByA.is_paid = true ∧
    exOrderPaidByA.payment_result.isSome = true :=
  ⟨rfl, rfl, rfl, rfl, rfl, rfl⟩

/-- C1 amended: when the Payment Verifier reports an amount different
from the order total, a markPaid call that passed the earlier checks
STILL succeeds: the mismatch is observed (lines 163-168) but discarded,
and the order is marked paid with a payment record attached and written
back unconditionally. -/
theorem claim_C1_amended_mismatch_still_marks_paid (db : DB) (order_id : String)
    (pd : PaymentData) (value : ℚ) (now : Nat) (nowIso : String)
    (payment_id : String) (order : Order)
    (hread : payReadPhase db order_id pd (.ok true value) = .ok (payment_id, order))
    (hmismatch : ¬ value = order.total_price) :
    mismatchObserved order (.ok true value) = some true ∧
    ∃ o, update_order_to_paid db order_id pd (.ok true value) now nowIso =
      (dbSet db order_id o, .ok o) ∧ o.is_paid = true ∧ o.payment_result.isSome = true := by
  constructor
  · have hne : ¬ order.total_price = value := fun h => hmismatch h.symm
    simp [mismatchObserved, hne]
  · refine ⟨(payWritePhase db order_id payment_id order pd now nowIso).2, ?_, rfl, rfl⟩
    unfold update_order_to_paid
    rw [hread]
    rfl

/-- Witness for the amended C1 at the concrete mismatch scenario
(verified amount 5, order total 16). -/
theorem claim_C1_amended_mismatch_still_marks_paid_witness :
    mismatchObserved exOrderUnpaid (.ok true 5) = some true ∧
    ∃ o, update_order_to_paid exDbUnpaid "o1" exPdA (.ok true 5) 3 "iso3" =
      (dbSet exDbUnpaid "o1" o, .ok o) ∧ o.is_paid = true ∧ o.payment_result.isSome = true :=
  claim_C1_amended_mismatch_still_marks_paid exDbUnpaid "o1" exPdA 5 3 "iso3"
    "txA" exOrderUnpaid rfl (by decide)

/-- The order `o1` as it is stored after the markPaid call of the C2
scenario (verifier call raised). -/
def exOrderPaidByB : Order :=
  { exOrderUnpaid with
    is_paid := true
    paid_at := some 4
    payment_result := some
      { id := "txB", status := "COMPLETED", update_time := "iso4", email_address := "" } }

/-- C2 counterexample: with the Payment Verifier call raising (provider
unavailable, timeout or malformed response), the markPaid call on the
unpaid order `o1` still succeeds and marks it paid, and its outcome is
indistinguishable from that of a fully verified call - contradicting
the claim that a failed verification yields a distinguishable
`ProviderUnavailable` failure and never marks the order paid. -/
theorem claim_C2_counterexample :
    exOrderUnpaid.is_paid = false ∧
    update_order_to_paid exDbUnpaid "o1" exPdB VerifierOutcome.exn 4 "iso4" =
      (dbSet exDbUnpaid "o1" exOrderPaidByB, .ok exOrderPaidByB) ∧
    exOrderPaidByB.is_paid = true ∧
    update_order_to_paid exDbUnpaid "o1" exPdB VerifierOutcome.exn 4 "iso4" =
      update_order_to_paid exDbUnpaid "o1" exPdB (.ok true 16) 4 "iso4" :=
  ⟨rfl, rfl, rfl, rfl⟩

/-- C2 amended: the verification outcome has NO influence on the
handler: the result of markPaid is identical for any two verifier
outcomes, in particular a raised exception behaves exactly like a
successful verification (the `try/except: pass` at lines 160-171
swallows every failure). -/
theorem claim_C2_amended_verifier_outcome_irrelevant (db : DB) (order_id : String)
    (pd : PaymentData) (v1 v2 : VerifierOutcome) (now : Nat) (nowIso : String) :
    update_order_to_paid db order_id pd v1 now nowIso =
      update_order_to_paid db order_id pd v2 now nowIso := by
  have h : payReadPhase db order_id pd v1 = payReadPhase db order_id pd v2 := by
    unfold payReadPhase
    rfl
  unfold update_order_to_paid
  rw [h]

/-- C6 counterexample: two markPaid calls race on the same unpaid order
`o1` under the legal interleaving where both read phases complete before
either write (each handler suspends at its awaited provider and ledger
calls between load and save); BOTH calls succeed, contradicting the
claim that exactly one succeeds and that the write is conditional on
`is_paid` still being false. -/
theorem claim_C6_counterexample :
    exOrderUnpaid.is_paid = false ∧
    exceptIsOk (racyBothPay exDbUnpaid "o1" exPdA exPdB
      (.ok true 16) (.ok true 16) 1 2 "i1" "i2").2.1 = true ∧
    exceptIsOk (racyBothPay exDbUnpaid "o1" exPdA exPdB
      (.ok true 16) (.ok true 16) 1 2 "i1" "i2").2.2 = true :=
  ⟨rfl, rfl, rfl⟩

/-- C6 amended: the payment write is an unconditional overwrite (plain
`save()`), so under the read-read-write-write interleaving any two
concurrent markPaid calls that both pass the read-phase checks against
the initial store BOTH succeed; no optimistic conditional write guards
the final store update. -/
theorem claim_C6_amended_race_both_succeed (db0 : DB) (order_id : String)
    (pdA pdB : PaymentData) (vA vB : VerifierOutcome) (nowA nowB : Nat) (isoA isoB : String)
    (pidA pidB : String) (oA oB : Order)
    (hA : payReadPhase db0 order_id pdA vA = .ok (pidA, oA))
    (hB : payReadPhase db0 order_id pdB vB = .ok (pidB, oB)) :
    exceptIsOk (racyBothPay db0 order_id pdA pdB vA vB nowA nowB isoA isoB).2.1 = true ∧
    exceptIsOk (racyBothPay db0 order_id pdA pdB vA vB nowA nowB isoA isoB).2.2 = true := by
  unfold racyBothPay
  rw [hA, hB]
  exact ⟨rfl, rfl⟩

/-- Witness for the amended C6 at a concrete store, with both verifier
calls raising (their outcome is irrelevant to the race). -/
theorem claim_C6_amended_race_both_succeed_witness :
    exceptIsOk (racyBothPay exDbUnpaid "o1" exPdA exPdB
      VerifierOutcome.exn VerifierOutcome.exn 8 9 "i8" "i9").2.1 = true ∧
    exceptIsOk (racyBothPay exDbUnpaid "o1" exPdA exPdB
      VerifierOutcome.exn VerifierOutcome.exn 8 9 "i8" "i9").2.2 = true :=
  claim_C6_amended_race_both_succeed exDbUnpaid "o1" exPdA exPdB
    VerifierOutcome.exn VerifierOutcome.exn 8 9 "i8" "i9"
    "txA" "txB" exOrderUnpaid exOrderUnpaid rfl rfl

/-- C10: every successful markPaid call records a payment record built
entirely from the client payload and the current time: the id comes
from the `id`, `transaction_id` or `paymentID` keys, the status from
the `status` key defaulting to `COMPLETED`, the update time from the
`update_time` key defaulting to the current ISO time, and the email
from `email_address` or `payer.email_address` - for every verifier
outcome, so nothing is taken from the Payment Verifier response. -/
theorem claim_C10_payment_record_from_client_payload (db : DB) (order_id : String)
    (pd : PaymentData) (verifier : VerifierOutcome) (now : Nat) (nowIso : String)
    (payment_id : String) (order : Order)
    (hread : payReadPhase db order_id pd verifier = .ok (payment_id, order)) :
    pidOf pd = some payment_id ∧
    ∃ o, (update_order_to_paid db order_id pd verifier now nowIso).2 = .ok o ∧
      o.payment_result = some
        { id := payment_id
          status := (pd.status).getD "COMPLETED"
          update_time := updateTimeOf pd nowIso
          email_address := emailOf pd } := by
  refine ⟨(payReadPhase_ok_inv hread).1,
    (payWritePhase db order_id payment_id order pd now nowIso).2, ?_, rfl⟩
  unfold update_order_to_paid
  rw [hread]

/-- Witness for C10 with a payload exercising the alternative keys: the
payment id arrives under `transaction_id`, the status key is absent
(default `COMPLETED`), the update time is absent (current ISO time) and
the email arrives under `payer.email_address`. -/
theorem claim_C10_payment_record_from_client_payload_witness :
    pidOf exPdAlt = some "tx77" ∧
    ∃ o, (update_order_to_paid exDbUnpaid "o1" exPdAlt (.ok true 16) 5 "iso5").2 = .ok o ∧
      o.payment_result = some
        { id := "tx77"
          status := "COMPLETED"
          update_time := "iso5"
          email_address := "payer@example.com" } :=
  claim_C10_payment_record_from_client_payload exDbUnpaid "o1" exPdAlt (.ok true 16) 5 "iso5"
    "tx77" exOrderUnpaid rfl
